import Mathlib

/-!
Verification of the code-generation request pipeline of the `gpt-macro`
repository (`src/internal/chatgpt.rs`, `src/internal/text_completion.rs`).

Strings of the Rust source are modelled by Lean `String` at the session level
and by `List Char` inside the code extractor, where the reasoning happens.
Rust `str::split(pat)` (lazy, leftmost non-overlapping matches) is modelled
by `findSplit`, which locates the first occurrence of the pattern; the two
iterator accesses the source performs (`nth(1)` and `next()`) are modelled by
`splitNth1` and `splitNextFirst`.  Rust `str::trim` is modelled by `trimL`
(dropping whitespace on both ends; the sources only ever meet ASCII
whitespace, where Rust and Lean `isWhitespace` agree).
-/

/-- Rust pattern search on strings: locate the first (leftmost) occurrence of
`sep` in `l`, returning the text before and the text after the occurrence,
or `none` when `sep` does not occur.  (For the empty pattern, which the
sources never use, it reports a match at the front.) -/
def findSplit (sep : List Char) : List Char → Option (List Char × List Char)
  | [] => if sep.isEmpty then some ([], []) else none
  | c :: rest =>
    if sep.isPrefixOf (c :: rest) then some ([], List.drop sep.length (c :: rest))
    else
      match findSplit sep rest with
      | some (pre, post) => some (c :: pre, post)
      | none => none

/-- Rust `str::split(sep).nth(1)`: the second piece of the split sequence,
i.e. the text between the first and the second occurrence of `sep` (running
to the end of the string when there is no second occurrence), or `none` when
`sep` does not occur at all (the split then yields a single piece). -/
def splitNth1 (sep l : List Char) : Option (List Char) :=
  match findSplit sep l with
  | none => none
  | some (_, post) =>
    match findSplit sep post with
    | none => some post
    | some (pre2, _) => some pre2

/-- First piece of Rust `str::split(sep)`: the text before the first
occurrence of `sep`, or the whole string when `sep` does not occur. -/
def splitFirstPiece (sep l : List Char) : List Char :=
  match findSplit sep l with
  | none => l
  | some (pre, _) => pre

/-- Rust `str::split(sep).next()` on a fresh split iterator.  The first call
to `next()` always yields `Some` (a split has at least one piece), which is
why the `ok_or("No code block end found")` arm in the source is dead code. -/
def splitNextFirst (sep l : List Char) : Option (List Char) :=
  some (splitFirstPiece sep l)

/-- Rust `str::trim`: drop whitespace from both ends. -/
def trimL (l : List Char) : List Char :=
  ((l.dropWhile Char.isWhitespace).reverse.dropWhile Char.isWhitespace).reverse

/-- The bare closing fence marker `"```"` both extractors split on. -/
def fenceL : List Char := "```".data

/-- The opening fence marker `"```rust"` both extractors split on. -/
def openerL : List Char := "```rust".data

/-- Failure modes of the pipeline, named by what the Rust source does.
`missingApiKey` is the `expect("OPENAI_API_KEY is not set")` abort raised
before any request is built (the `ConfigurationError` of the spec);
`transportError` covers the hyper-level failures (`TransportError`);
`parseError` is a `serde_json::from_str` failure propagated with `?`
(the `ProtocolError` of the spec); `indexOutOfBounds` is a Rust indexing abort
(`choices[0]` on an empty list, or `messages[len - 1]` on an empty
conversation); `noCodeBlockStart`/`noCodeBlockEnd` are the string errors of
`extract_code` (the `ExtractionError` of the spec), carrying the offending text;
`noResponse` is the `ok_or("No response")` error of
`TextCompletion::extract_code`. -/
inductive GenError
  | missingApiKey
  | transportError
  | parseError (body : String)
  | indexOutOfBounds
  | noCodeBlockStart (content : String)
  | noCodeBlockEnd (content : String)
  | noResponse
deriving DecidableEq

deriving instance DecidableEq for Except

/-- Common body of `ChatGPT::extract_code` and `TextCompletion::extract_code`
(the two functions are textually identical): split the content on the opening
marker `"```rust"`, take the second piece (failing with "No code block start
found" when the marker is absent), split that on the bare `"```"`, take the
first piece (the "No code block end found" arm is dead, see `splitNextFirst`),
and trim. -/
def extract_code_from (content : String) : Except GenError String :=
  match splitNth1 openerL content.data with
  | none => Except.error (GenError.noCodeBlockStart content)
  | some afterOpen =>
    match splitNextFirst fenceL afterOpen with
    | none => Except.error (GenError.noCodeBlockEnd content)
    | some piece => Except.ok (String.mk (trimL piece))

/-- Process environment as the pipeline reads it: the API credential
(`OPENAI_API_KEY`) and the optional proxy URL (`HTTP_PROXY`). -/
structure Env where
  openai_api_key : Option String
  http_proxy : Option String
deriving DecidableEq

/-- Message role; serializes to lowercase `user`/`system`/`assistant`. -/
inductive Role
  | user
  | system
  | assistant
deriving DecidableEq

/-- One conversation turn, `struct ChatMessage` of `chatgpt.rs`. -/
structure ChatMessage where
  role : Role
  content : String
deriving DecidableEq

/-- Request payload of the Chat backend, `struct Chat` of `chatgpt.rs`. -/
structure Chat where
  model : String
  messages : List ChatMessage
deriving DecidableEq

/-- Token-usage accounting of a Chat response. -/
structure ChatUsage where
  prompt_tokens : Nat
  completion_tokens : Nat
  total_tokens : Nat
deriving DecidableEq

/-- One choice of a Chat response. -/
structure ChatChoice where
  index : Nat
  message : ChatMessage
  finish_reason : String
deriving DecidableEq

/-- Parsed response body of the Chat backend, `struct ChatCompletion`. -/
structure ChatCompletion where
  id : String
  object : String
  created : Nat
  choices : List ChatChoice
  usage : ChatUsage
deriving DecidableEq

/-- Chat backend session state, `struct ChatGPT`. -/
structure ChatGPT where
  chat : Chat
deriving DecidableEq

def ChatGPT.MODEL : String := "gpt-3.5-turbo"

def ChatGPT.URL : String := "https://api.openai.com/v1/chat/completions"

/-- Rust `ChatGPT::add_message`: push a turn at the end of the conversation. -/
def ChatGPT.add_message (self : ChatGPT) (role : Role) (content : String) : ChatGPT :=
  { self with chat := { self.chat with messages := self.chat.messages ++ [⟨role, content⟩] } }

/-- Rust `<ChatGPT as CodeCompletion>::new`: default model, empty conversation. -/
def ChatGPT.new : ChatGPT :=
  ⟨⟨ChatGPT.MODEL, []⟩⟩

/-- Rust `<ChatGPT as CodeCompletion>::init`: append the system turn. -/
def ChatGPT.init (self : ChatGPT) (init_prompt : String) : ChatGPT :=
  self.add_message Role.system init_prompt

/-- Rust `<ChatGPT as CodeCompletion>::add_context`: append a user turn. -/
def ChatGPT.add_context (self : ChatGPT) (context : String) : ChatGPT :=
  self.add_message Role.user context

/-- Rust `ChatGPT::completion`, with the external collaborators made explicit:
`parse` stands for `serde_json::from_str::<ChatCompletion>` and `transport`
for the serialized hyper POST round trip returning the UTF-8 body.  Returned
are the result (`Result<(), _>` in the source), the session state after the
call (`&mut self`), and the number of transport invocations the call issued.
The source reads `OPENAI_API_KEY` first and aborts via `expect` when it is
unset, before building the request or touching the network; a transport
failure or a body that does not parse is propagated with `?`; `choices[0]` on
an empty choices list is an indexing abort; otherwise the text of choice 0 is
appended to the conversation as an assistant turn and the remaining choices
are never read. -/
def ChatGPT.completion (parse : String → Option ChatCompletion) (env : Env)
    (transport : Chat → Except Unit String) (self : ChatGPT) :
    Except GenError Unit × ChatGPT × Nat :=
  match env.openai_api_key with
  | none => (Except.error GenError.missingApiKey, self, 0)
  | some _ =>
    match transport self.chat with
    | Except.error _ => (Except.error GenError.transportError, self, 1)
    | Except.ok body_str =>
      match parse body_str with
      | none => (Except.error (GenError.parseError body_str), self, 1)
      | some chat_completion =>
        match chat_completion.choices with
        | [] => (Except.error GenError.indexOutOfBounds, self, 1)
        | choice0 :: _ =>
          (Except.ok (), self.add_message Role.assistant choice0.message.content, 1)

/-- Rust `ChatGPT::extract_code`: read the content of the last conversation turn
(`messages[messages.len() - 1]`, an indexing abort on an empty conversation)
and run the two-split extraction on it. -/
def ChatGPT.extract_code (self : ChatGPT) : Except GenError String :=
  match self.chat.messages.getLast? with
  | none => Except.error GenError.indexOutOfBounds
  | some last => extract_code_from last.content

/-- Rust `<ChatGPT as CodeCompletion>::code_completion`: block on `completion`,
then extract from the updated session.  The session keeps whatever
`completion` left in it even when extraction fails. -/
def ChatGPT.code_completion (parse : String → Option ChatCompletion) (env : Env)
    (transport : Chat → Except Unit String) (self : ChatGPT) :
    Except GenError String × ChatGPT × Nat :=
  match ChatGPT.completion parse env transport self with
  | (Except.error e, s, n) => (Except.error e, s, n)
  | (Except.ok _, s, n) => (s.extract_code, s, n)

/-- Request payload of the Completion backend, `struct CompletionRequest`.
The source field `temperature: f32` only ever holds the exact constant `0.0`,
modelled as the integer `0`. -/
structure CompletionRequest where
  model : String
  prompt : String
  max_tokens : Nat
  temperature : Int
deriving DecidableEq

/-- Token-usage accounting of a Completion response. -/
structure CompletionUsage where
  prompt_tokens : Nat
  completion_tokens : Nat
  total_tokens : Nat
deriving DecidableEq

/-- One choice of a Completion response. -/
structure CompletionChoice where
  text : String
  index : Nat
  logprobs : Option Nat
  finish_reason : String
deriving DecidableEq

/-- Parsed response body of the Completion backend, `struct CompletionResponse`. -/
structure CompletionResponse where
  id : String
  object : String
  created : Nat
  model : String
  choices : List CompletionChoice
  usage : CompletionUsage
deriving DecidableEq

/-- Completion backend session state, `struct TextCompletion`. -/
structure TextCompletion where
  request : CompletionRequest
  response : Option CompletionResponse
deriving DecidableEq

def TextCompletion.MODEL : String := "text-davinci-003"

def TextCompletion.URL : String := "https://api.openai.com/v1/completions"

/-- Rust `TextCompletion::add_prompt`: `prompt.push('\n'); prompt.push_str(&content)`. -/
def TextCompletion.add_prompt (self : TextCompletion) (content : String) : TextCompletion :=
  { self with request := { self.request with
      prompt := self.request.prompt.push '\n' ++ content } }

/-- Rust `<TextCompletion as CodeCompletion>::new`: default model, empty prompt,
`max_tokens: 1024`, `temperature: 0.0`, no response yet. -/
def TextCompletion.new : TextCompletion :=
  ⟨⟨TextCompletion.MODEL, "", 1024, 0⟩, none⟩

/-- Rust `<TextCompletion as CodeCompletion>::init`: append to the prompt buffer. -/
def TextCompletion.init (self : TextCompletion) (init_prompt : String) : TextCompletion :=
  self.add_prompt init_prompt

/-- Rust `<TextCompletion as CodeCompletion>::add_context`: append to the prompt buffer. -/
def TextCompletion.add_context (self : TextCompletion) (context : String) : TextCompletion :=
  self.add_prompt context

/-- Rust `TextCompletion::completion`, shaped exactly like `ChatGPT.completion`.
On success the parsed response is stored in the session; the
`response.choices[0].text` read the source performs for its progress print
is an indexing abort when the choices list is empty, and happens before the
response is stored. -/
def TextCompletion.completion (parse : String → Option CompletionResponse) (env : Env)
    (transport : CompletionRequest → Except Unit String) (self : TextCompletion) :
    Except GenError Unit × TextCompletion × Nat :=
  match env.openai_api_key with
  | none => (Except.error GenError.missingApiKey, self, 0)
  | some _ =>
    match transport self.request with
    | Except.error _ => (Except.error GenError.transportError, self, 1)
    | Except.ok body_str =>
      match parse body_str with
      | none => (Except.error (GenError.parseError body_str), self, 1)
      | some resp =>
        match resp.choices with
        | [] => (Except.error GenError.indexOutOfBounds, self, 1)
        | _ :: _ => (Except.ok (), { self with response := some resp }, 1)

/-- Rust `TextCompletion::extract_code`: take choice 0 of the stored response
(`ok_or("No response")` when no response is stored, an indexing abort when
the choices list is empty) and run the two-split extraction on its text. -/
def TextCompletion.extract_code (self : TextCompletion) : Except GenError String :=
  match self.response with
  | none => Except.error GenError.noResponse
  | some resp =>
    match resp.choices with
    | [] => Except.error GenError.indexOutOfBounds
    | choice0 :: _ => extract_code_from choice0.text

/-- Rust `<TextCompletion as CodeCompletion>::code_completion`. -/
def TextCompletion.code_completion (parse : String → Option CompletionResponse) (env : Env)
    (transport : CompletionRequest → Except Unit String) (self : TextCompletion) :
    Except GenError String × TextCompletion × Nat :=
  match TextCompletion.completion parse env transport self with
  | (Except.error e, s, n) => (Except.error e, s, n)
  | (Except.ok _, s, n) => (s.extract_code, s, n)

/-- Backtick character, written numerically to keep it out of the code text. -/
def btick : Char := Char.ofNat 96

theorem fenceL_eq : fenceL = [btick, btick, btick] := by decide

theorem openerL_eq : openerL = [btick, btick, btick, 'r', 'u', 's', 't'] := by decide

theorem fence_prefix_of_opener : fenceL <+: openerL := ⟨"rust".data, by decide⟩

theorem btick_beq_nl : (btick == '\n') = false := by decide

theorem r_beq_nl : (('r' : Char) == '\n') = false := by decide

theorem isPrefixOf_eq_true_iff {l₁ l₂ : List Char} :
    l₁.isPrefixOf l₂ = true ↔ l₁ <+: l₂ :=
  List.isPrefixOf_iff_prefix

/-- Scanner-side condition: no occurrence of `sep` in `X ++ rest` starts at a
position inside `X`. -/
def noStartIn (sep : List Char) : List Char → List Char → Bool
  | [], _ => true
  | c :: X, rest => !sep.isPrefixOf (c :: (X ++ rest)) && noStartIn sep X rest

theorem noStartIn_append (sep X Y rest : List Char) :
    noStartIn sep (X ++ Y) rest = (noStartIn sep X (Y ++ rest) && noStartIn sep Y rest) := by
  induction X with
  | nil => simp [noStartIn]
  | cons c X ih => simp [noStartIn, ih, List.append_assoc, Bool.and_assoc]

theorem findSplit_append (sep X rest : List Char) (h : noStartIn sep X rest = true) :
    findSplit sep (X ++ rest) =
      (findSplit sep rest).map (fun pr => (X ++ pr.1, pr.2)) := by
  induction X with
  | nil =>
    cases hfs : findSplit sep rest with
    | none => simp [hfs]
    | some pr => simp [hfs]
  | cons c X ih =>
    simp only [noStartIn, Bool.and_eq_true, Bool.not_eq_true'] at h
    rw [List.cons_append]
    rw [findSplit]
    rw [if_neg (by simp [h.1])]
    rw [ih h.2]
    cases hfs : findSplit sep rest with
    | none => simp
    | some pr => simp

theorem findSplit_nil (sep : List Char) (h : sep.isEmpty = false) :
    findSplit sep [] = none := by
  simp [findSplit, h]

theorem findSplit_none_of_noStartIn (sep l : List Char) (h0 : sep.isEmpty = false)
    (h : noStartIn sep l [] = true) : findSplit sep l = none := by
  have := findSplit_append sep l [] h
  rw [List.append_nil] at this
  rw [this, findSplit_nil sep h0]
  rfl

theorem findSplit_self_append (sep rest : List Char) (h : sep.isEmpty = false) :
    findSplit sep (sep ++ rest) = some ([], rest) := by
  cases sep with
  | nil => simp [List.isEmpty] at h
  | cons s ss =>
    have hpre : (s :: ss).isPrefixOf (s :: (ss ++ rest)) = true := by
      rw [isPrefixOf_eq_true_iff, ← List.cons_append]
      exact List.prefix_append _ _
    rw [List.cons_append, findSplit, if_pos (by simp [hpre])]
    rw [← List.cons_append, List.drop_left]

theorem isPrefixOf_false_mono {p1 p2 s : List Char} (hp : p1 <+: p2)
    (h : p1.isPrefixOf s = false) : p2.isPrefixOf s = false := by
  cases hb : p2.isPrefixOf s with
  | false => rfl
  | true =>
    have h2 : p1 <+: s := hp.trans (isPrefixOf_eq_true_iff.mp hb)
    rw [isPrefixOf_eq_true_iff.mpr h2] at h
    exact absurd h (by simp)

theorem noStartIn_mono {p1 p2 : List Char} (hp : p1 <+: p2) (X rest : List Char)
    (h : noStartIn p1 X rest = true) : noStartIn p2 X rest = true := by
  induction X with
  | nil => rfl
  | cons c X ih =>
    simp only [noStartIn, Bool.and_eq_true, Bool.not_eq_true'] at h ⊢
    exact ⟨isPrefixOf_false_mono hp h.1, ih h.2⟩

/-- The closing marker followed by a newline contains no window at which the
fenced block could start: the first three characters after any of its
positions include either the `'\n'` or the `'r'`/newline mismatch. -/
theorem fence_not_prefix_nl (T rest : List Char) (hT : ¬ fenceL <:+: T) :
    fenceL.isPrefixOf (T ++ '\n' :: rest) = false := by
  rcases T with _ | ⟨a, _ | ⟨b, _ | ⟨c, T3⟩⟩⟩
  · simp [fenceL_eq, List.isPrefixOf, btick_beq_nl]
  · simp [fenceL_eq, List.isPrefixOf, btick_beq_nl]
  · simp [fenceL_eq, List.isPrefixOf, btick_beq_nl]
  · cases hp : fenceL.isPrefixOf ((a :: b :: c :: T3) ++ '\n' :: rest) with
    | false => rfl
    | true =>
      exfalso
      apply hT
      rw [fenceL_eq] at hp
      simp only [List.cons_append, List.isPrefixOf, Bool.and_eq_true, beq_iff_eq] at hp
      obtain ⟨ha, hb, hc, -⟩ := hp
      rw [fenceL_eq, ← ha, ← hb, ← hc]
      exact ⟨[], T3, rfl⟩

theorem not_fence_infix_cons {T : List Char} (hT : ¬ fenceL <:+: T) {a : Char}
    (ha : a ≠ btick) : ¬ fenceL <:+: (a :: T) := by
  intro h
  rcases List.infix_cons_iff.mp h with hpre | hinf
  · rw [fenceL_eq] at hpre
    exact ha (List.cons_prefix_cons.mp hpre).1.symm
  · exact hT hinf

theorem not_fence_infix_of_no_btick {X : List Char} (h : ∀ c ∈ X, c ≠ btick) :
    ¬ fenceL <:+: X := by
  intro hinf
  exact h btick (hinf.subset (by rw [fenceL_eq]; exact List.mem_cons_self _ _)) rfl

theorem noStartIn_of_no_btick {X : List Char} (rest : List Char)
    (h : ∀ c ∈ X, c ≠ btick) : noStartIn fenceL X rest = true := by
  induction X with
  | nil => rfl
  | cons c X ih =>
    simp only [noStartIn, Bool.and_eq_true, Bool.not_eq_true']
    constructor
    · rw [fenceL_eq]
      have hc : (btick == c) = false :=
        beq_eq_false_iff_ne.mpr (fun hh => (h c (List.mem_cons_self _ _)) hh.symm)
      simp [List.isPrefixOf, hc]
    · exact ih (fun d hd => h d (List.mem_cons_of_mem _ hd))

theorem noStartIn_fence_nl (T rest : List Char) (hT : ¬ fenceL <:+: T) :
    noStartIn fenceL T ('\n' :: rest) = true := by
  induction T with
  | nil => rfl
  | cons c T ih =>
    simp only [noStartIn, Bool.and_eq_true, Bool.not_eq_true']
    refine ⟨?_, ih (fun h => hT (List.infix_cons h))⟩
    rw [← List.cons_append]
    exact fence_not_prefix_nl (c :: T) rest hT

/-- The text of a fenced body followed by its newline contains no window at
which a closing fence could start. -/
theorem noStartIn_body (T R0 : List Char) (hT : ¬ fenceL <:+: T) :
    noStartIn fenceL (T ++ ['\n']) R0 = true := by
  rw [noStartIn_append, List.singleton_append]
  rw [noStartIn_fence_nl T R0 hT]
  rw [noStartIn_of_no_btick R0 (by intro c hc; simp at hc; subst hc; decide)]
  rfl

/-- No opener occurrence can start inside a closing fence that is followed by
a newline. -/
theorem noStartIn_closer_op (rest : List Char) :
    noStartIn openerL fenceL ('\n' :: rest) = true := by
  rw [fenceL_eq, openerL_eq]
  simp [noStartIn, List.isPrefixOf, btick_beq_nl, r_beq_nl]

/-- Trimming ignores whitespace padding on both sides. -/
theorem trimL_pad (A B T : List Char) (hA : ∀ c ∈ A, c.isWhitespace = true)
    (hB : ∀ c ∈ B, c.isWhitespace = true) :
    trimL (A ++ T ++ B) = trimL T := by
  unfold trimL
  rw [List.append_assoc, List.dropWhile_append_of_pos hA, List.dropWhile_append]
  by_cases hT : (T.dropWhile Char.isWhitespace).isEmpty
  · rw [if_pos hT]
    rw [List.dropWhile_eq_nil_iff.mpr hB]
    rw [List.isEmpty_iff.mp hT]
  · rw [if_neg hT, List.reverse_append]
    rw [List.dropWhile_append_of_pos (by intro c hc; exact hB c (List.mem_reverse.mp hc))]

/-- Splitting a well-formed wrapped text on the opening marker and taking the
second piece yields everything after the marker: the marker occurs exactly
once when the fenced body contains no stray triple backtick. -/
theorem splitNth1_wrap (W : List Char) (hW : ¬ fenceL <:+: W) :
    splitNth1 openerL (openerL ++ '\n' :: (W ++ '\n' :: fenceL)) =
      some ('\n' :: (W ++ '\n' :: fenceL)) := by
  have h1 : findSplit openerL (openerL ++ '\n' :: (W ++ '\n' :: fenceL)) =
      some ([], '\n' :: (W ++ '\n' :: fenceL)) :=
    findSplit_self_append _ _ (by decide)
  have hshape : '\n' :: (W ++ '\n' :: fenceL) = (('\n' :: W) ++ ['\n']) ++ fenceL := by
    simp
  have h2 : findSplit openerL ('\n' :: (W ++ '\n' :: fenceL)) = none := by
    apply findSplit_none_of_noStartIn _ _ (by decide)
    rw [hshape, noStartIn_append, List.append_nil]
    have hbody : noStartIn fenceL (('\n' :: W) ++ ['\n']) fenceL = true :=
      noStartIn_body ('\n' :: W) fenceL (not_fence_infix_cons hW (by decide))
    rw [noStartIn_mono fence_prefix_of_opener _ _ hbody]
    rw [show noStartIn openerL fenceL [] = true by decide]
    rfl
  unfold splitNth1
  rw [h1]
  simp [h2]

/-- Splitting a fenced body (terminated by its newline and closing fence) on
the bare fence marker cuts exactly at the closing fence. -/
theorem splitFirstPiece_body (T rest : List Char) (hT : ¬ fenceL <:+: T) :
    splitFirstPiece fenceL ((T ++ ['\n']) ++ (fenceL ++ rest)) = T ++ ['\n'] := by
  have h1 : findSplit fenceL ((T ++ ['\n']) ++ (fenceL ++ rest)) =
      some (T ++ ['\n'], rest) := by
    rw [findSplit_append fenceL _ _ (noStartIn_body T _ hT)]
    rw [findSplit_self_append _ _ (by decide)]
    simp
  unfold splitFirstPiece
  rw [h1]

/-- Extraction on any conversation ending in a turn is extraction on the
content of that turn: the common two-split body applied to the last message. -/
theorem chat_extract_code_eq (m : String) (msgs : List ChatMessage) (r : Role)
    (content : String) :
    ChatGPT.extract_code ⟨⟨m, msgs ++ [⟨r, content⟩]⟩⟩ = extract_code_from content := by
  unfold ChatGPT.extract_code
  rw [List.getLast?_concat]

theorem extract_code_from_mk (l : List Char) :
    extract_code_from (String.mk l) =
      match splitNth1 openerL l with
      | none => Except.error (GenError.noCodeBlockStart (String.mk l))
      | some afterOpen =>
        match splitNextFirst fenceL afterOpen with
        | none => Except.error (GenError.noCodeBlockEnd (String.mk l))
        | some piece => Except.ok (String.mk (trimL piece)) := rfl

/-- Extraction from a text of the shape
`prose ++ "```rust" ++ "\n" ++ A ++ "\n```" ++ "\n" ++ prose2 ++ "```rust" ++ anything`
returns the body of the first block trimmed, for backtick-free prose and a body
with no stray triple backtick; the second opener and everything after it are
discarded. -/
theorem extract_first_of_two_blocks (P A Q Z : List Char)
    (hP : ∀ c ∈ P, c ≠ btick) (hA : ¬ fenceL <:+: A) (hQ : ∀ c ∈ Q, c ≠ btick) :
    extract_code_from (String.mk (P ++ (openerL ++
        (((('\n' :: A) ++ ['\n']) ++ (fenceL ++ ('\n' :: Q))) ++ (openerL ++ Z))))) =
      Except.ok (String.mk (trimL A)) := by
  have hX1 : noStartIn openerL ((('\n' :: A) ++ ['\n']) ++ (fenceL ++ ('\n' :: Q)))
      (openerL ++ Z) = true := by
    rw [noStartIn_append]
    have ha : noStartIn openerL (('\n' :: A) ++ ['\n'])
        ((fenceL ++ ('\n' :: Q)) ++ (openerL ++ Z)) = true := by
      apply noStartIn_mono fence_prefix_of_opener
      exact noStartIn_body ('\n' :: A) _ (not_fence_infix_cons hA (by decide))
    have hb : noStartIn openerL (fenceL ++ ('\n' :: Q)) (openerL ++ Z) = true := by
      rw [noStartIn_append]
      have hb1 : noStartIn openerL fenceL (('\n' :: Q) ++ (openerL ++ Z)) = true := by
        rw [List.cons_append]
        exact noStartIn_closer_op _
      have hb2 : noStartIn openerL ('\n' :: Q) (openerL ++ Z) = true := by
        apply noStartIn_mono fence_prefix_of_opener
        apply noStartIn_of_no_btick
        intro c hc
        rcases List.mem_cons.mp hc with rfl | hc
        · decide
        · exact hQ c hc
      rw [hb1, hb2]
      rfl
    rw [ha, hb]
    rfl
  have hfs2 : findSplit openerL
      (((('\n' :: A) ++ ['\n']) ++ (fenceL ++ ('\n' :: Q))) ++ (openerL ++ Z)) =
      some ((('\n' :: A) ++ ['\n']) ++ (fenceL ++ ('\n' :: Q)), Z) := by
    rw [findSplit_append _ _ _ hX1]
    rw [findSplit_self_append _ _ (by decide)]
    simp
  have hfs1 : findSplit openerL (P ++ (openerL ++
      (((('\n' :: A) ++ ['\n']) ++ (fenceL ++ ('\n' :: Q))) ++ (openerL ++ Z)))) =
      some (P, ((('\n' :: A) ++ ['\n']) ++ (fenceL ++ ('\n' :: Q))) ++ (openerL ++ Z)) := by
    rw [findSplit_append _ _ _
      (noStartIn_mono fence_prefix_of_opener _ _ (noStartIn_of_no_btick _ hP))]
    rw [findSplit_self_append _ _ (by decide)]
    simp
  have hnth : splitNth1 openerL (P ++ (openerL ++
      (((('\n' :: A) ++ ['\n']) ++ (fenceL ++ ('\n' :: Q))) ++ (openerL ++ Z)))) =
      some ((('\n' :: A) ++ ['\n']) ++ (fenceL ++ ('\n' :: Q))) := by
    unfold splitNth1
    rw [hfs1]
    simp only [List.append_assoc, List.cons_append, List.nil_append] at hfs2
    simp [hfs2]
  have hpiece : splitFirstPiece fenceL ((('\n' :: A) ++ ['\n']) ++ (fenceL ++ ('\n' :: Q)))
      = ('\n' :: A) ++ ['\n'] :=
    splitFirstPiece_body ('\n' :: A) ('\n' :: Q) (not_fence_infix_cons hA (by decide))
  have htrim : trimL (('\n' :: A) ++ ['\n']) = trimL A := by
    have hsh : ('\n' :: A) ++ ['\n'] = ['\n'] ++ A ++ ['\n'] := by simp
    rw [hsh]
    exact trimL_pad _ _ _ (by decide) (by decide)
  rw [extract_code_from_mk, hnth]
  show Except.ok (String.mk (trimL (splitFirstPiece fenceL
      ((('\n' :: A) ++ ['\n']) ++ (fenceL ++ ('\n' :: Q)))))) = _
  rw [hpiece, htrim]

/-- C1, counterexample.  The claim quantifies over every language tag `L`,
but both extractors split on the hard-coded marker `"```rust"`: wrapping the
text `x` with the tag `python` does not return `x`; extraction fails with
the "No code block start found" error. -/
theorem c1_counterexample :
    extract_code_from ("```python\nx\n```") =
        Except.error (GenError.noCodeBlockStart ("```python\nx\n```")) ∧
      extract_code_from ("```python\nx\n```") ≠ Except.ok ("x") := by
  decide

/-- C1, amended.  For the hard-coded target tag `rust` and any fenced body
`ws1 ++ T ++ ws2` (whitespace padding around a text `T`) containing no
occurrence of the closing marker `"```"`, extracting the wrapped text
`"```rust\n" ++ body ++ "\n```"` returns exactly `T` trimmed, independently
of the added leading/trailing whitespace inside the fence. -/
theorem c1_roundtrip_rust_amended (T ws1 ws2 : List Char)
    (hW : ¬ fenceL <:+: (ws1 ++ T ++ ws2))
    (h1 : ∀ c ∈ ws1, c.isWhitespace = true)
    (h2 : ∀ c ∈ ws2, c.isWhitespace = true) :
    extract_code_from (String.mk (openerL ++ '\n' :: ((ws1 ++ T ++ ws2) ++ '\n' :: fenceL))) =
      Except.ok (String.mk (trimL T)) := by
  have hnth := splitNth1_wrap (ws1 ++ T ++ ws2) hW
  have hpiece : splitFirstPiece fenceL ('\n' :: ((ws1 ++ T ++ ws2) ++ '\n' :: fenceL))
      = ('\n' :: (ws1 ++ T ++ ws2)) ++ ['\n'] := by
    have hsh : '\n' :: ((ws1 ++ T ++ ws2) ++ '\n' :: fenceL)
        = (('\n' :: (ws1 ++ T ++ ws2)) ++ ['\n']) ++ (fenceL ++ []) := by
      simp
    rw [hsh]
    exact splitFirstPiece_body _ _ (not_fence_infix_cons hW (by decide))
  have htrim : trimL (('\n' :: (ws1 ++ T ++ ws2)) ++ ['\n']) = trimL T := by
    have hsh : ('\n' :: (ws1 ++ T ++ ws2)) ++ ['\n']
        = ('\n' :: ws1) ++ T ++ (ws2 ++ ['\n']) := by
      simp
    rw [hsh]
    apply trimL_pad
    · intro c hc
      rcases List.mem_cons.mp hc with rfl | hc
      · decide
      · exact h1 c hc
    · intro c hc
      rcases List.mem_append.mp hc with hc | hc
      · exact h2 c hc
      · simp at hc
        subst hc
        decide
  rw [extract_code_from_mk, hnth]
  show Except.ok (String.mk (trimL (splitFirstPiece fenceL
      ('\n' :: ((ws1 ++ T ++ ws2) ++ '\n' :: fenceL))))) = _
  rw [hpiece, htrim]

/-- C1, witness.  A concrete run of the amended round trip: body
`" " ++ "foo" ++ "\t"`, whose extraction returns `"foo"`. -/
theorem c1_roundtrip_rust_amended_witness :
    (¬ fenceL <:+: (" ".data ++ "foo".data ++ "\t".data)) ∧
      extract_code_from (String.mk (openerL ++
          '\n' :: ((" ".data ++ "foo".data ++ "\t".data) ++ '\n' :: fenceL))) =
        Except.ok (String.mk (trimL ("foo".data))) ∧
      String.mk (trimL ("foo".data)) = "foo" :=
  ⟨not_fence_infix_of_no_btick (by decide),
    c1_roundtrip_rust_amended ("foo".data) (" ".data) ("\t".data)
      (not_fence_infix_of_no_btick (by decide)) (by decide) (by decide),
    by decide⟩

/-- C2.  The first half of the claim holds (no opener anywhere yields the
"No code block start found" error), but the second half does not: on input
`"```rust\nfoo"`, which contains the opening marker and no closing marker,
`extract_code` returns `Ok("foo")` instead of failing — the Rust
`split("```").next()` call always yields a first piece on the first call, so the
`ok_or("No code block end found")` arm in the source is unreachable dead code. -/
theorem c2_no_closer_evaluation :
    extract_code_from ("```rust\nfoo") = Except.ok ("foo") ∧
      extract_code_from ("prose with no fence") =
        Except.error (GenError.noCodeBlockStart ("prose with no fence")) := by
  decide

/-- C6.  On a text with two tagged fenced blocks (backtick-free prose before
the first block and between the blocks, first body free of stray `"```"`,
second body and trailing prose arbitrary), extraction returns the trimmed
contents of the first block and never the contents of the second block. -/
theorem c6_first_block_selected (P A Q B R : List Char)
    (hP : ∀ c ∈ P, c ≠ btick) (hA : ¬ fenceL <:+: A) (hQ : ∀ c ∈ Q, c ≠ btick) :
    extract_code_from (String.mk (P ++ openerL ++ ('\n' :: A) ++ ('\n' :: fenceL) ++
        ('\n' :: Q) ++ openerL ++ ('\n' :: B) ++ ('\n' :: fenceL) ++ R)) =
      Except.ok (String.mk (trimL A)) ∧
    (trimL A ≠ trimL B →
      extract_code_from (String.mk (P ++ openerL ++ ('\n' :: A) ++ ('\n' :: fenceL) ++
          ('\n' :: Q) ++ openerL ++ ('\n' :: B) ++ ('\n' :: fenceL) ++ R)) ≠
        Except.ok (String.mk (trimL B))) := by
  have hsh : P ++ openerL ++ ('\n' :: A) ++ ('\n' :: fenceL) ++
      ('\n' :: Q) ++ openerL ++ ('\n' :: B) ++ ('\n' :: fenceL) ++ R
      = P ++ (openerL ++ (((('\n' :: A) ++ ['\n']) ++ (fenceL ++ ('\n' :: Q))) ++
        (openerL ++ (('\n' :: B) ++ (('\n' :: fenceL) ++ R))))) := by
    simp
  have hmain : extract_code_from (String.mk (P ++ openerL ++ ('\n' :: A) ++
      ('\n' :: fenceL) ++ ('\n' :: Q) ++ openerL ++ ('\n' :: B) ++
      ('\n' :: fenceL) ++ R)) = Except.ok (String.mk (trimL A)) := by
    rw [hsh]
    exact extract_first_of_two_blocks P A Q _ hP hA hQ
  refine ⟨hmain, fun hne hcontra => hne ?_⟩
  rw [hmain] at hcontra
  exact congrArg String.data (Except.ok.inj hcontra)

/-- Concrete environment holding a credential, used by several witnesses. -/
def sampleEnv : Env := ⟨some ("k"), none⟩

/-- Transport stub returning a fixed body, Chat side. -/
def okBodyTransport : Chat → Except Unit String := fun _ => Except.ok ("body")

/-- Transport stub returning a fixed body, Completion side. -/
def okBodyTransportT : CompletionRequest → Except Unit String := fun _ => Except.ok ("body")

/-- C3.  With the credential environment variable unset, `code_completion`
of either backend fails immediately — the `expect("OPENAI_API_KEY is not
set")` abort that realizes the `ConfigurationError` of the spec — before the
request is even built: the transport stub records zero invocations and the
session is untouched. -/
theorem c3_missing_credential (env : Env) (hk : env.openai_api_key = none)
    (parse : String → Option ChatCompletion) (transport : Chat → Except Unit String)
    (g : ChatGPT)
    (parseT : String → Option CompletionResponse)
    (transportT : CompletionRequest → Except Unit String) (t : TextCompletion) :
    ChatGPT.code_completion parse env transport g =
        (Except.error GenError.missingApiKey, g, 0) ∧
      TextCompletion.code_completion parseT env transportT t =
        (Except.error GenError.missingApiKey, t, 0) := by
  unfold ChatGPT.code_completion TextCompletion.code_completion
    ChatGPT.completion TextCompletion.completion
  rw [hk]
  exact ⟨rfl, rfl⟩

/-- C3, witness: concrete sessions under an empty environment. -/
theorem c3_missing_credential_witness :
    (Env.mk none none).openai_api_key = none ∧
      ChatGPT.code_completion (fun _ => none) (Env.mk none none)
          (fun _ => Except.error ()) ChatGPT.new =
        (Except.error GenError.missingApiKey, ChatGPT.new, 0) ∧
      TextCompletion.code_completion (fun _ => none) (Env.mk none none)
          (fun _ => Except.error ()) TextCompletion.new =
        (Except.error GenError.missingApiKey, TextCompletion.new, 0) :=
  ⟨rfl,
    (c3_missing_credential (Env.mk none none) rfl (fun _ => none)
      (fun _ => Except.error ()) ChatGPT.new (fun _ => none)
      (fun _ => Except.error ()) TextCompletion.new).1,
    (c3_missing_credential (Env.mk none none) rfl (fun _ => none)
      (fun _ => Except.error ()) ChatGPT.new (fun _ => none)
      (fun _ => Except.error ()) TextCompletion.new).2⟩

/-- Model reply used in the C4 scenario: prose around a rust fence. -/
def c4Reply : String := "x\n```rust\ncode\n```"

/-- Parse stub producing one assistant choice carrying `c4Reply`. -/
def c4Parse : String → Option ChatCompletion :=
  fun _ => some ⟨("id"), ("chat.completion"), 0,
    [⟨0, ⟨Role.assistant, c4Reply⟩, ("stop")⟩], ⟨0, 0, 0⟩⟩

/-- Chat session after `initialize("S")`, `addContext("U1")`, `addContext("U2")`. -/
def c4Base : ChatGPT := ((ChatGPT.new.init ("S")).add_context ("U1")).add_context ("U2")

/-- C4, counterexample.  A successful `generate()` returns the extracted
text (`"code"`), but the conversation grows by the raw model reply, not by
the returned text: the appended assistant turn carries
`"x\n```rust\ncode\n```"`, so the conversation is not the base list extended
by `{assistant, "code"}` as the claim states. -/
theorem c4_counterexample :
    (ChatGPT.code_completion c4Parse sampleEnv okBodyTransport c4Base).1 =
        Except.ok ("code") ∧
      (ChatGPT.code_completion c4Parse sampleEnv okBodyTransport c4Base).2.1.chat.messages =
        c4Base.chat.messages ++ [⟨Role.assistant, c4Reply⟩] ∧
      (ChatGPT.code_completion c4Parse sampleEnv okBodyTransport c4Base).2.1.chat.messages ≠
        c4Base.chat.messages ++ [⟨Role.assistant, ("code")⟩] := by
  decide

/-- C4, amended.  After `initialize("S")`, `addContext("U1")`,
`addContext("U2")` the conversation is exactly
`[{system,S},{user,U1},{user,U2}]` in that order; after a subsequent
successful `generate()` in which the raw model reply is `M` (the text of
choice 0) and the extracted result is `R`, the conversation is that list
extended by exactly one turn `{assistant, M}`, and the call returns `R`. -/
theorem c4_conversation_ordering_amended (S U1 U2 : String) (env : Env) (k : String)
    (parse : String → Option ChatCompletion) (transport : Chat → Except Unit String)
    (body : String) (cc : ChatCompletion) (c : ChatChoice) (cs : List ChatChoice) (R : String)
    (hk : env.openai_api_key = some k)
    (ht : transport (((ChatGPT.new.init S).add_context U1).add_context U2).chat =
      Except.ok body)
    (hp : parse body = some cc) (hc : cc.choices = c :: cs)
    (hx : extract_code_from c.message.content = Except.ok R) :
    (((ChatGPT.new.init S).add_context U1).add_context U2).chat.messages =
        [⟨Role.system, S⟩, ⟨Role.user, U1⟩, ⟨Role.user, U2⟩] ∧
      ChatGPT.code_completion parse env transport
          (((ChatGPT.new.init S).add_context U1).add_context U2) =
        (Except.ok R,
          (((ChatGPT.new.init S).add_context U1).add_context U2).add_message
            Role.assistant c.message.content, 1) := by
  refine ⟨rfl, ?_⟩
  unfold ChatGPT.code_completion ChatGPT.completion
  have hex : ((((ChatGPT.new.init S).add_context U1).add_context U2).add_message
      Role.assistant c.message.content).extract_code = Except.ok R := by
    show ChatGPT.extract_code ⟨⟨ChatGPT.MODEL,
      [⟨Role.system, S⟩, ⟨Role.user, U1⟩, ⟨Role.user, U2⟩] ++
        [⟨Role.assistant, c.message.content⟩]⟩⟩ = Except.ok R
    rw [chat_extract_code_eq]
    exact hx
  simp only [hk, ht, hp, hc, hex]

/-- C4, witness: the amended statement at the concrete scenario, with reply
`"x\n```rust\ncode\n```"` and extracted result `"code"`. -/
theorem c4_conversation_ordering_amended_witness :
    c4Base.chat.messages =
        [⟨Role.system, ("S")⟩, ⟨Role.user, ("U1")⟩, ⟨Role.user, ("U2")⟩] ∧
      ChatGPT.code_completion c4Parse sampleEnv okBodyTransport c4Base =
        (Except.ok ("code"), c4Base.add_message Role.assistant c4Reply, 1) :=
  c4_conversation_ordering_amended ("S") ("U1") ("U2") sampleEnv ("k") c4Parse
    okBodyTransport ("body") _ _ _ ("code") rfl rfl rfl rfl (by decide)

/-- C5.  On a fresh Completion session, `initialize("S")` then
`addContext("U1")` leaves the prompt buffer exactly `"\nS\nU1"`; in general
each of `initialize` and `addContext` appends a leading newline separator
followed by its argument, preserving call order. -/
theorem c5_prompt_accumulation :
    ((TextCompletion.new.init ("S")).add_context ("U1")).request.prompt = "\nS\nU1" ∧
      ∀ (t : TextCompletion) (s : String),
        (t.init s).request.prompt = t.request.prompt ++ "\n" ++ s ∧
        (t.add_context s).request.prompt = t.request.prompt ++ "\n" ++ s := by
  have key : ∀ (t : TextCompletion) (s : String),
      (t.add_prompt s).request.prompt = t.request.prompt ++ "\n" ++ s := by
    intro t s
    apply String.ext
    have hnl : ("\n" : String).data = ['\n'] := rfl
    simp [TextCompletion.add_prompt, String.data_append, String.data_push, hnl]
  exact ⟨by decide, fun t s => ⟨key t s, key t s⟩⟩

/-- Modelled from the spec: the `ProtocolError` taxonomy of the spec names a
surfaced, recoverable error — a response body failing to parse as the
expected shape, propagated to the caller with context.  In the code that is
exactly the propagated `serde_json::from_str` failure, `GenError.parseError`;
a Rust indexing abort is not such a surfaced error. -/
def specProtocolError : GenError → Bool
  | GenError.parseError _ => true
  | _ => false

/-- Parse stub producing a well-formed response with an empty choices list. -/
def emptyChoicesParse : String → Option ChatCompletion :=
  fun _ => some ⟨("id"), ("chat.completion"), 0, [], ⟨0, 0, 0⟩⟩

/-- C7, counterexample.  When the response body parses but the choices list
is empty, `generate()` does not fail with a surfaced `ProtocolError`: it
aborts with the `choices[0]` index-out-of-bounds panic. -/
theorem c7_counterexample :
    (ChatGPT.code_completion emptyChoicesParse sampleEnv okBodyTransport ChatGPT.new).1 =
        Except.error GenError.indexOutOfBounds ∧
      specProtocolError GenError.indexOutOfBounds = false := by
  decide

/-- C7, amended.  For either backend, when the credential is set and the
transport succeeds: a body that does not parse yields the surfaced
`ProtocolError` (the propagated parse failure); a body that parses with an
empty choices list aborts with the `choices[0]` index-out-of-bounds panic
rather than a surfaced error; and when at least one choice is present, the
choice at index 0 is the one consumed while the remaining choices never
influence the outcome. -/
theorem c7_protocol_choice_amended (env : Env) (k : String)
    (hk : env.openai_api_key = some k)
    (parse : String → Option ChatCompletion) (transport : Chat → Except Unit String)
    (g : ChatGPT) (body : String)
    (ht : transport g.chat = Except.ok body)
    (parseT : String → Option CompletionResponse)
    (transportT : CompletionRequest → Except Unit String)
    (t : TextCompletion) (bodyT : String)
    (htT : transportT t.request = Except.ok bodyT) :
    (parse body = none →
      ChatGPT.completion parse env transport g =
        (Except.error (GenError.parseError body), g, 1)) ∧
    (∀ cc, parse body = some cc → cc.choices = [] →
      ChatGPT.completion parse env transport g =
        (Except.error GenError.indexOutOfBounds, g, 1)) ∧
    (∀ cc c cs, parse body = some cc → cc.choices = c :: cs →
      ChatGPT.completion parse env transport g =
        (Except.ok (), g.add_message Role.assistant c.message.content, 1)) ∧
    (parseT bodyT = none →
      TextCompletion.completion parseT env transportT t =
        (Except.error (GenError.parseError bodyT), t, 1)) ∧
    (∀ resp, parseT bodyT = some resp → resp.choices = [] →
      TextCompletion.completion parseT env transportT t =
        (Except.error GenError.indexOutOfBounds, t, 1)) ∧
    (∀ resp ch chs, parseT bodyT = some resp → resp.choices = ch :: chs →
      TextCompletion.completion parseT env transportT t =
        (Except.ok (), { t with response := some resp }, 1)) := by
  unfold ChatGPT.completion TextCompletion.completion
  refine ⟨fun hp => by simp only [hk, ht, htT, hp],
    fun cc hp hc => by simp only [hk, ht, htT, hp, hc],
    fun cc c cs hp hc => by simp only [hk, ht, htT, hp, hc],
    fun hp => by simp only [hk, ht, htT, hp],
    fun resp hp hc => by simp only [hk, ht, htT, hp, hc],
    fun resp ch chs hp hc => by simp only [hk, ht, htT, hp, hc]⟩

/-- Parse stub producing one chat choice with text `"hi"`. -/
def oneChoiceParse : String → Option ChatCompletion :=
  fun _ => some ⟨("id"), ("chat.completion"), 0,
    [⟨0, ⟨Role.assistant, ("hi")⟩, ("stop")⟩], ⟨0, 0, 0⟩⟩

/-- Completion-side response with an empty choices list. -/
def emptyChoicesResp : CompletionResponse :=
  ⟨("id"), ("text_completion"), 0, TextCompletion.MODEL, [], ⟨0, 0, 0⟩⟩

/-- Completion-side response with one choice of text `"hi"`. -/
def oneChoiceResp : CompletionResponse :=
  ⟨("id"), ("text_completion"), 0, TextCompletion.MODEL,
    [⟨("hi"), 0, none, ("stop")⟩], ⟨0, 0, 0⟩⟩

/-- C7, witness: every leg of the amended statement at concrete stubs. -/
theorem c7_protocol_choice_amended_witness :
    ChatGPT.completion (fun _ => none) sampleEnv okBodyTransport ChatGPT.new =
        (Except.error (GenError.parseError ("body")), ChatGPT.new, 1) ∧
      ChatGPT.completion emptyChoicesParse sampleEnv okBodyTransport ChatGPT.new =
        (Except.error GenError.indexOutOfBounds, ChatGPT.new, 1) ∧
      ChatGPT.completion oneChoiceParse sampleEnv okBodyTransport ChatGPT.new =
        (Except.ok (), ChatGPT.new.add_message Role.assistant ("hi"), 1) ∧
      TextCompletion.completion (fun _ => none) sampleEnv okBodyTransportT
          TextCompletion.new =
        (Except.error (GenError.parseError ("body")), TextCompletion.new, 1) ∧
      TextCompletion.completion (fun _ => some emptyChoicesResp) sampleEnv
          okBodyTransportT TextCompletion.new =
        (Except.error GenError.indexOutOfBounds, TextCompletion.new, 1) ∧
      TextCompletion.completion (fun _ => some oneChoiceResp) sampleEnv
          okBodyTransportT TextCompletion.new =
        (Except.ok (), { TextCompletion.new with response := some oneChoiceResp }, 1) :=
  ⟨(c7_protocol_choice_amended sampleEnv ("k") rfl (fun _ => none) okBodyTransport
      ChatGPT.new ("body") rfl (fun _ => none) okBodyTransportT TextCompletion.new
      ("body") rfl).1 rfl,
    (c7_protocol_choice_amended sampleEnv ("k") rfl emptyChoicesParse okBodyTransport
      ChatGPT.new ("body") rfl (fun _ => none) okBodyTransportT TextCompletion.new
      ("body") rfl).2.1 _ rfl rfl,
    (c7_protocol_choice_amended sampleEnv ("k") rfl oneChoiceParse okBodyTransport
      ChatGPT.new ("body") rfl (fun _ => none) okBodyTransportT TextCompletion.new
      ("body") rfl).2.2.1 _ _ _ rfl rfl,
    (c7_protocol_choice_amended sampleEnv ("k") rfl (fun _ => none) okBodyTransport
      ChatGPT.new ("body") rfl (fun _ => none) okBodyTransportT TextCompletion.new
      ("body") rfl).2.2.2.1 rfl,
    (c7_protocol_choice_amended sampleEnv ("k") rfl (fun _ => none) okBodyTransport
      ChatGPT.new ("body") rfl (fun _ => some emptyChoicesResp) okBodyTransportT
      TextCompletion.new ("body") rfl).2.2.2.2.1 _ rfl rfl,
    (c7_protocol_choice_amended sampleEnv ("k") rfl (fun _ => none) okBodyTransport
      ChatGPT.new ("body") rfl (fun _ => some oneChoiceResp) okBodyTransportT
      TextCompletion.new ("body") rfl).2.2.2.2.2 _ _ _ rfl rfl⟩

/-- Public operations of the Chat backend that modify the conversation.
`genReply r` is the state effect of a `generate()` whose transport and parse
succeeded with raw reply `r` (the assistant turn is appended); a
`generate()` failing before that point leaves the conversation unchanged,
and one failing at extraction has the same state effect as `genReply`. -/
inductive ChatOp
  | initOp (s : String)
  | addContextOp (s : String)
  | genReply (r : String)

/-- Apply one public operation to a Chat session. -/
def applyOp (g : ChatGPT) : ChatOp → ChatGPT
  | ChatOp.initOp s => g.init s
  | ChatOp.addContextOp s => g.add_context s
  | ChatOp.genReply r => g.add_message Role.assistant r

/-- Run a sequence of public operations from a given session. -/
def runOps (g : ChatGPT) (ops : List ChatOp) : ChatGPT :=
  ops.foldl applyOp g

theorem applyOp_messages (g : ChatGPT) (op : ChatOp) :
    ∃ m, (applyOp g op).chat.messages = g.chat.messages ++ [m] := by
  cases op with
  | initOp s => exact ⟨_, rfl⟩
  | addContextOp s => exact ⟨_, rfl⟩
  | genReply r => exact ⟨_, rfl⟩

/-- Every public operation only appends, so the head of a nonempty
conversation never changes. -/
theorem runOps_head_eq (ops : List ChatOp) (g : ChatGPT) (h : g.chat.messages ≠ []) :
    (runOps g ops).chat.messages.head? = g.chat.messages.head? := by
  induction ops generalizing g with
  | nil => rfl
  | cons op ops ih =>
    obtain ⟨m, hm⟩ := applyOp_messages g op
    have hne : (applyOp g op).chat.messages ≠ [] := by
      rw [hm]
      exact List.append_ne_nil_of_right_ne_nil _ (List.cons_ne_nil _ _)
    show (runOps (applyOp g op) ops).chat.messages.head? = _
    rw [ih (applyOp g op) hne, hm]
    cases hmsgs : g.chat.messages with
    | nil => exact absurd hmsgs h
    | cons a l => simp

/-- C8, counterexample.  The invariant does not hold over all sequences of
public operations: `create` followed by `addContext("U")` (no `initialize`)
yields a conversation whose first turn has role `user`. -/
theorem c8_counterexample :
    (runOps ChatGPT.new [ChatOp.addContextOp ("U")]).chat.messages.head? =
        some ⟨Role.user, ("U")⟩ ∧
      Role.user ≠ Role.system := by
  decide

/-- C8, amended.  In every Chat conversation reachable by `create`,
`initialize(s)`, and then any sequence of the public operations, the first
turn is present and has role `system` (with content `s`): all operations
only append. -/
theorem c8_first_turn_system_amended (s : String) (ops : List ChatOp) :
    (runOps (ChatGPT.new.init s) ops).chat.messages.head? = some ⟨Role.system, s⟩ := by
  rw [runOps_head_eq ops _ (List.cons_ne_nil _ _)]
  rfl

/-- C9.  `create()` on the Completion backend yields an empty prompt, the
fixed cap `max_tokens = 1024`, temperature pinned at `0`, and the fixed
completion-style default model, distinct from the Chat default model; none
of `initialize`, `addContext`, or `generate` changes model, cap, or
temperature (`generate` leaves the whole request untouched). -/
theorem c9_fixed_generation_params :
    TextCompletion.new.request.prompt = "" ∧
      TextCompletion.new.request.max_tokens = 1024 ∧
      TextCompletion.new.request.temperature = 0 ∧
      TextCompletion.new.request.model = TextCompletion.MODEL ∧
      TextCompletion.MODEL ≠ ChatGPT.MODEL ∧
      (∀ (t : TextCompletion) (s : String),
        (t.init s).request.model = t.request.model ∧
        (t.init s).request.max_tokens = t.request.max_tokens ∧
        (t.init s).request.temperature = t.request.temperature ∧
        (t.add_context s).request.model = t.request.model ∧
        (t.add_context s).request.max_tokens = t.request.max_tokens ∧
        (t.add_context s).request.temperature = t.request.temperature) ∧
      (∀ (parse : String → Option CompletionResponse) (env : Env)
          (transport : CompletionRequest → Except Unit String) (t : TextCompletion),
        ((TextCompletion.code_completion parse env transport t).2.1).request =
          t.request) := by
  refine ⟨rfl, rfl, rfl, rfl, by decide,
    fun t s => ⟨rfl, rfl, rfl, rfl, rfl, rfl⟩, ?_⟩
  intro parse env transport t
  unfold TextCompletion.code_completion TextCompletion.completion
  cases hk : env.openai_api_key with
  | none => rfl
  | some k =>
    cases htr : transport t.request with
    | error e => rfl
    | ok body =>
      cases hp : parse body with
      | none => simp only [hp]
      | some resp =>
        cases hc : resp.choices with
        | nil => simp only [hp, hc]
        | cons ch chs => simp only [hp, hc]

/-- Parse stub whose single choice text carries no code fence at all. -/
def c10Parse : String → Option ChatCompletion :=
  fun _ => some ⟨("id"), ("chat.completion"), 0,
    [⟨0, ⟨Role.assistant, ("no fence here")⟩, ("stop")⟩], ⟨0, 0, 0⟩⟩

/-- C10.  On the Chat backend, `code_completion` appends the raw reply as an
assistant turn before attempting extraction, so when extraction fails the
call returns the extraction error while the conversation has nonetheless
grown by exactly that one assistant turn; the session is not rolled back. -/
theorem c10_no_rollback_on_extraction_failure (g : ChatGPT) (env : Env) (k : String)
    (parse : String → Option ChatCompletion) (transport : Chat → Except Unit String)
    (body : String) (cc : ChatCompletion) (c : ChatChoice) (cs : List ChatChoice)
    (e : GenError)
    (hk : env.openai_api_key = some k) (ht : transport g.chat = Except.ok body)
    (hp : parse body = some cc) (hc : cc.choices = c :: cs)
    (hx : extract_code_from c.message.content = Except.error e) :
    ChatGPT.code_completion parse env transport g =
      (Except.error e, g.add_message Role.assistant c.message.content, 1) := by
  unfold ChatGPT.code_completion ChatGPT.completion
  have hex : (g.add_message Role.assistant c.message.content).extract_code =
      Except.error e := by
    rcases g with ⟨⟨m, msgs⟩⟩
    show ChatGPT.extract_code ⟨⟨m, msgs ++ [⟨Role.assistant, c.message.content⟩]⟩⟩ =
      Except.error e
    rw [chat_extract_code_eq]
    exact hx
  simp only [hk, ht, hp, hc, hex]

/-- C10, witness: a reply without any fence makes extraction fail while the
conversation keeps the appended assistant turn. -/
theorem c10_no_rollback_witness :
    ChatGPT.code_completion c10Parse sampleEnv okBodyTransport ChatGPT.new =
      (Except.error (GenError.noCodeBlockStart ("no fence here")),
        ChatGPT.new.add_message Role.assistant ("no fence here"), 1) :=
  c10_no_rollback_on_extraction_failure ChatGPT.new sampleEnv ("k") c10Parse
    okBodyTransport ("body") _ _ _ _ rfl rfl rfl rfl (by decide)

/-- C6, witness.  Concrete two-block text: the result is the body of the
first block, not of the second. -/
theorem c6_first_block_selected_witness :
    extract_code_from (String.mk (("prose ").data ++ openerL ++ ('\n' :: ("fn a()").data) ++
        ('\n' :: fenceL) ++ ('\n' :: (" more prose").data) ++ openerL ++
        ('\n' :: ("fn b()").data) ++ ('\n' :: fenceL) ++ ("\nDone.").data)) =
      Except.ok (String.mk (trimL (("fn a()").data))) ∧
      String.mk (trimL (("fn a()").data)) = "fn a()" :=
  ⟨(c6_first_block_selected (("prose ").data) (("fn a()").data) ((" more prose").data)
      (("fn b()").data) (("\nDone.").data) (by decide)
      (not_fence_infix_of_no_btick (by decide)) (by decide)).1,
    by decide⟩
